import Mathlib

/-!
Shallow embedding of the Game of Life core:
`src/game_of_life/board.py` (class `Board`) and
`src/game_of_life/simulation.py` (classes `Simulation` and `Video`).

Modelling conventions:
* numpy integer matrices become `List (List Nat)`; the shape invariant
  (matrix is `rows` lists of `cols` entries) that numpy guarantees is
  carried as the predicate `Board.wf` where proofs need it;
* Python `raise ValueError` / `raise IndexError` sites become `Except Err`
  with one constructor per distinct raise site;
* cell indices are `Int` (Python ints may be negative; every access in the
  source is guarded by an explicit `0 <= i < bound` check before indexing);
* the Python `set` `previous_boards` is modelled as a duplicate-free list:
  `sadd` inserts only when absent, membership and size match `in`/`len`;
* `while True:` loops are modelled with explicit fuel
  `max_number_of_steps + 1`, which is sufficient because every
  `simulation_step` increments `step_count` by one and the step returns
  `False` as soon as `step_count >= max_number_of_steps`;
* the filesystem boundary of `save_board_to_file`/`load_board_from_file`
  is modelled as the list of stripped lines (each written line is the row
  text plus a newline, and the loader strips each line it reads, so the
  composition exchanges exactly the list of row texts).
-/

deriving instance DecidableEq for Except

/-- Error kinds, one per distinct raise site in the source. -/
inductive Err where
  | InvalidDimension
  | OutOfBounds
  | InvalidState
  | InvalidDensity
  | InvalidStepBudget
  | EmptyInput
  | InconsistentRowLength
  | InvalidCharacter
  | RowCountMismatch
  deriving DecidableEq, Repr

/-- The board of `board.py`: dimensions, step counter, cell matrix. -/
structure Board where
  rows : Nat
  cols : Nat
  step_count : Nat
  matrix : List (List Nat)
  deriving DecidableEq, Repr

/-- Read `m[r][c]`, defaulting to 0 out of range (all uses are guarded). -/
def mget (m : List (List Nat)) (r c : Nat) : Nat :=
  (m.getD r []).getD c 0

/-- Board.__init__: positive dimensions, all cells dead, step count 0. -/
def Board.construct (rows cols : Nat) : Except Err Board :=
  if rows = 0 ∨ cols = 0 then .error .InvalidDimension
  else .ok { rows := rows, cols := cols, step_count := 0,
             matrix := List.replicate rows (List.replicate cols 0) }

/-- Board.clear. -/
def Board.clear (b : Board) : Board :=
  { b with step_count := 0,
           matrix := List.replicate b.rows (List.replicate b.cols 0) }

/-- Board.empty: np.all(matrix == 0). -/
def Board.empty (b : Board) : Bool :=
  b.matrix.all (fun row => row.all (fun v => v == 0))

/-- Board.set_cell_value. The state check precedes the bounds check,
exactly as in the source. -/
def Board.set_cell_value (b : Board) (row col state : Int) : Except Err Board :=
  if ¬(state = 0 ∨ state = 1) then .error .InvalidState
  else if ¬(0 ≤ row ∧ row < (b.rows : Int) ∧ 0 ≤ col ∧ col < (b.cols : Int)) then
    .error .OutOfBounds
  else .ok { b with
    matrix := b.matrix.set row.toNat
      ((b.matrix.getD row.toNat []).set col.toNat state.toNat) }

/-- Board.get_cell_value. -/
def Board.get_cell_value (b : Board) (row col : Int) : Except Err Nat :=
  if ¬(0 ≤ row ∧ row < (b.rows : Int) ∧ 0 ≤ col ∧ col < (b.cols : Int)) then
    .error .OutOfBounds
  else .ok (mget b.matrix row.toNat col.toNat)

/-- The counting loops of Board.count_alive: `r` ranges over
`range(row-1, row+2)` and `c` over `range(col-1, col+2)`; a neighbor
contributes when it lies on the board, differs from the center, and is 1. -/
def count_alive_core (m : List (List Nat)) (rows cols : Nat) (row col : Int) : Nat :=
  List.sum (List.map (fun r =>
    List.sum (List.map (fun c =>
      if 0 ≤ r ∧ r < (rows : Int) ∧ 0 ≤ c ∧ c < (cols : Int) then
        if (r ≠ row ∨ c ≠ col) ∧ mget m r.toNat c.toNat = 1 then 1 else 0
      else 0)
      [col - 1, col, col + 1]))
    [row - 1, row, row + 1])

/-- Board.count_alive: bounds check, then the guarded 3x3 count. -/
def Board.count_alive (b : Board) (row col : Int) : Except Err Nat :=
  if ¬(0 ≤ row ∧ row < (b.rows : Int) ∧ 0 ≤ col ∧ col < (b.cols : Int)) then
    .error .OutOfBounds
  else .ok (count_alive_core b.matrix b.rows b.cols row col)

/-- Board.step. The source copies the matrix and rewrites every `(row, col)`
in `range(rows) x range(cols)` from neighbor counts taken on the old matrix;
under the numpy shape invariant that equals rebuilding the matrix from the
ranges, every cell from the pre-step matrix. -/
def Board.step (b : Board) : Board :=
  { b with
    matrix := (List.range b.rows).map (fun row =>
      (List.range b.cols).map (fun col =>
        let alive := count_alive_core b.matrix b.rows b.cols (Int.ofNat row) (Int.ofNat col)
        let old := mget b.matrix row col
        if old = 1 then
          if alive < 2 ∨ alive > 3 then 0 else old
        else
          if alive = 3 then 1 else old)),
    step_count := b.step_count + 1 }

/-- Board.change_to_tuple: the canonical key is the cell matrix itself. -/
def Board.change_to_tuple (b : Board) : List (List Nat) :=
  b.matrix

/-- Board.is_stable: np.array_equal of the two matrices. -/
def Board.is_stable (b previous_board : Board) : Bool :=
  b.matrix == previous_board.matrix

/-- Board.from_tuple: dimensions from the nested list, then the matrix. -/
def Board.from_tuple (state : List (List Nat)) : Except Err Board := do
  let b ← Board.construct state.length (state.getD 0 []).length
  return { b with matrix := state }

/-- Board.save_board_to_file, with the file modelled as its list of lines
(each written line is the row's digit characters; `str` of a cell value). -/
def Board.save_board_to_file (b : Board) : List (List Char) :=
  (List.range b.rows).map (fun row =>
    ((List.range b.cols).map (fun col => (Nat.repr (mget b.matrix row col)).toList)).flatten)

/-- The per-line validation loop of Board.load_board_from_file: each line
must have the length of the first line and hold only '0'/'1'. -/
def check_lines : List (List Char) → Nat → Except Err Unit
  | [], _ => .ok ()
  | line :: rest, lines_length =>
    if line.length ≠ lines_length then .error .InconsistentRowLength
    else if ¬ line.all (fun symbol => symbol == '0' || symbol == '1') then
      .error .InvalidCharacter
    else check_lines rest lines_length

/-- Board.load_board_from_file: validate, check the row count against the
board's configured rows, then rebuild cols/matrix and reset the counter.
The source fills a zero matrix with 1 where the symbol is '1', which on
validated lines is the per-character map below. -/
def Board.load_board_from_file (b : Board) (lines : List (List Char)) : Except Err Board := do
  if lines = [] then throw .EmptyInput
  let lines_length := (lines.getD 0 []).length
  check_lines lines lines_length
  if lines.length ≠ b.rows then throw .RowCountMismatch
  return { b with
    cols := lines_length,
    matrix := lines.map (fun line => line.map (fun symbol => if symbol = '1' then 1 else 0)),
    step_count := 0 }

/-- Shape and content invariant numpy maintains for every `Board` the
source can build: `rows` rows, each of length `cols`, entries 0 or 1. -/
def Board.wf (b : Board) : Prop :=
  b.matrix.length = b.rows ∧
  (∀ row ∈ b.matrix, row.length = b.cols) ∧
  (∀ row ∈ b.matrix, ∀ v ∈ row, v = 0 ∨ v = 1)

instance (b : Board) : Decidable b.wf := by
  unfold Board.wf; infer_instance

/-- The simulation driver of `simulation.py`. -/
structure Simulation where
  board : Board
  max_number_of_steps : Nat
  stop_simulation : Bool
  loop : Bool
  where_is_loop : Option Nat
  previous_boards : List (List (List Nat))
  deriving DecidableEq, Repr

/-- Python set.add: insert only when absent. -/
def sadd (x : List (List Nat)) (l : List (List (List Nat))) : List (List (List Nat)) :=
  if x ∈ l then l else x :: l

/-- Simulation.__init__: positive budget, seeded seen-set. -/
def Simulation.construct (board : Board) (max_number_of_steps : Nat)
    (stop_simulation : Bool) : Except Err Simulation :=
  if max_number_of_steps = 0 then .error .InvalidStepBudget
  else .ok { board := board, max_number_of_steps := max_number_of_steps,
             stop_simulation := stop_simulation, loop := false,
             where_is_loop := none,
             previous_boards := sadd board.change_to_tuple [] }

/-- Simulation.is_loop. -/
def Simulation.is_loop (s : Simulation) : Bool :=
  s.loop

/-- The tail of Simulation.simulation_step after the membership branch:
add the state, apply the 10000-entry reseed policy, then the emptiness
check, then `return True`. -/
def step_tail (s : Simulation) (current_board_state : List (List Nat)) : Simulation × Bool :=
  let pb := sadd current_board_state s.previous_boards
  let pb := if pb.length > 10000 then [current_board_state] else pb
  let s := { s with previous_boards := pb }
  if s.board.empty then
    let s := { s with loop := true, where_is_loop := some s.board.step_count }
    if s.stop_simulation then (s, false) else (s, true)
  else (s, true)

/-- Simulation.simulation_step: step the board; return False at the budget;
otherwise run the seen-state check (latching loop/where_is_loop, returning
False when stopping on loops), then the insert/reseed/emptiness tail. -/
def Simulation.simulation_step (s : Simulation) : Simulation × Bool :=
  let s := { s with board := s.board.step }
  if s.board.step_count ≥ s.max_number_of_steps then (s, false)
  else
    let current_board_state := s.board.change_to_tuple
    if current_board_state ∈ s.previous_boards then
      let s := { s with loop := true, where_is_loop := some s.board.step_count }
      if s.stop_simulation then (s, false) else step_tail s current_board_state
    else step_tail s current_board_state

/-- The result dictionary of Simulation.start_simulation. -/
structure SimResult where
  loop : Bool
  step_count : Nat
  board : Board
  where_is_loop : Option Nat
  why : String
  deriving DecidableEq, Repr

/-- The reason classification at the end of Simulation.start_simulation:
budget first, then loop, then the fallback. -/
def Simulation.run_why (s : Simulation) : String :=
  if s.board.step_count ≥ s.max_number_of_steps then "max_number_of_steps"
  else if s.loop then "loop"
  else "unknown"

/-- The `while True` loop of Simulation.start_simulation, with fuel. -/
def sim_loop : Nat → Simulation → Simulation
  | 0, s => s
  | fuel + 1, s =>
    match s.simulation_step with
    | (s', true) => sim_loop fuel s'
    | (s', false) => s'

/-- Simulation.start_simulation: the early-empty branch sets the internal
loop flag and where_is_loop yet reports loop=False/where_is_loop=None;
otherwise run the loop and classify. Returns the post-run driver state
together with the result dictionary. -/
def Simulation.start_simulation (s : Simulation) : Simulation × SimResult :=
  if s.board.empty then
    let s := { s with loop := true, where_is_loop := some s.board.step_count }
    (s, { loop := false, step_count := s.board.step_count, board := s.board,
          where_is_loop := none, why := "empty" })
  else
    let s := sim_loop (s.max_number_of_steps + 1) s
    (s, { loop := s.loop, step_count := s.board.step_count, board := s.board,
          where_is_loop := s.where_is_loop, why := s.run_why })

/-- Simulation.copy_current_board: np.copy of the matrix, i.e. its value. -/
def Simulation.copy_current_board (s : Simulation) : List (List Nat) :=
  s.board.matrix

/-- The recorder of `simulation.py` (class Video). -/
structure Video where
  simulation : Simulation
  frames : List (List (List Nat))
  deriving DecidableEq, Repr

/-- Video.__init__: one initial frame, the grid at construction time. -/
def Video.construct (simulation : Simulation) : Video :=
  { simulation := simulation, frames := [simulation.copy_current_board] }

/-- Video.record: one driver step, then append a snapshot regardless of
the continue/stop outcome. -/
def Video.record (v : Video) : Video × Bool :=
  match v.simulation.simulation_step with
  | (s', continue_simulation) =>
    ({ simulation := s', frames := v.frames ++ [s'.copy_current_board] },
     continue_simulation)

/-- The reason classification of Video.video_run: loop first, then the
budget, then the fallback — the opposite priority of run_why. -/
def video_why (s : Simulation) : String :=
  if s.loop then "loop"
  else if s.board.step_count ≥ s.max_number_of_steps then "max_number_of_steps"
  else "unknown"

/-- The result dictionary of Video.video_run. -/
structure VideoResult where
  frames : List (List (List Nat))
  loop : Bool
  step_count : Nat
  where_is_loop : Option Nat
  board : Board
  why : String
  deriving DecidableEq, Repr

/-- The `while True` loop of Video.video_run, with fuel. -/
def video_loop : Nat → Video → Video
  | 0, v => v
  | fuel + 1, v =>
    match v.record with
    | (v', true) => video_loop fuel v'
    | (v', false) => v'

/-- Video.video_run. -/
def Video.video_run (v : Video) : VideoResult :=
  let v := video_loop (v.simulation.max_number_of_steps + 1) v
  { frames := v.frames, loop := v.simulation.is_loop,
    step_count := v.simulation.board.step_count,
    where_is_loop := v.simulation.where_is_loop,
    board := v.simulation.board, why := video_why v.simulation }

/-- Video.get_number_of_frames. -/
def Video.get_number_of_frames (v : Video) : Nat :=
  v.frames.length

/-- A sequence of `simulation_step` calls, discarding the booleans. -/
def stepN : Nat → Simulation → Simulation
  | 0, s => s
  | k + 1, s => stepN k (s.simulation_step).1

/-- A sequence of `record` calls, discarding the booleans. -/
def recordN : Nat → Video → Video
  | 0, v => v
  | k + 1, v => recordN k (v.record).1

/-!  Concrete fixtures used by witnesses and counterexamples. -/

/-- A horizontal blinker centered on a 5x5 grid. -/
def blinkerRows : List (List Nat) :=
  [[0,0,0,0,0],[0,0,0,0,0],[0,1,1,1,0],[0,0,0,0,0],[0,0,0,0,0]]

/-- The vertical phase of the blinker. -/
def blinkerVert : List (List Nat) :=
  [[0,0,0,0,0],[0,0,1,0,0],[0,0,1,0,0],[0,0,1,0,0],[0,0,0,0,0]]

/-- The 5x5 blinker board, step count 0. -/
def blinkerBoard : Board :=
  { rows := 5, cols := 5, step_count := 0, matrix := blinkerRows }

/-- A 2x2 block, a still life. -/
def blockRows : List (List Nat) := [[1,1],[1,1]]

/-- The 2x2 block board, step count 0. -/
def blockBoard : Board :=
  { rows := 2, cols := 2, step_count := 0, matrix := blockRows }

/-- Driver on the block with budget 1, stopping on loops. -/
def blockSimMax1 : Simulation :=
  { board := blockBoard, max_number_of_steps := 1, stop_simulation := true,
    loop := false, where_is_loop := none, previous_boards := [blockRows] }

/-- Driver on an all-dead 2x2 board. -/
def emptySim : Simulation :=
  { board := { rows := 2, cols := 2, step_count := 0, matrix := [[0,0],[0,0]] },
    max_number_of_steps := 5, stop_simulation := true,
    loop := false, where_is_loop := none, previous_boards := [[[0,0],[0,0]]] }

/-- Driver on the block with budget 2, not stopping on loops. -/
def blockSimNoStop : Simulation :=
  { board := blockBoard, max_number_of_steps := 2, stop_simulation := false,
    loop := false, where_is_loop := none, previous_boards := [blockRows] }

/-- Driver built around an already-stepped board (step count 1). -/
def steppedSim : Simulation :=
  { board := blockBoard.step, max_number_of_steps := 5, stop_simulation := true,
    loop := false, where_is_loop := none,
    previous_boards := [blockBoard.step.change_to_tuple] }

/-- Driver on the blinker with budget 4, not stopping on loops. -/
def blinkerSimNoStop : Simulation :=
  { board := blinkerBoard, max_number_of_steps := 4, stop_simulation := false,
    loop := false, where_is_loop := none, previous_boards := [blinkerRows] }

/-- Driver on the blinker with budget 3, stopping on loops. -/
def blinkerSim3 : Simulation :=
  { board := blinkerBoard, max_number_of_steps := 3, stop_simulation := true,
    loop := false, where_is_loop := none, previous_boards := [blinkerRows] }

/-- C3 counterexample: on a constructed 2x2 board, `set_cell_value` at the
out-of-range row 99 with the raw state 2 fails with InvalidState, not
OutOfBounds — the state check runs before the bounds check. -/
theorem bounds_error_cex :
    Board.construct 2 2 = .ok (Board.clear blockBoard) ∧
    (Board.clear blockBoard).set_cell_value 99 0 2 = .error .InvalidState ∧
    (Board.clear blockBoard).set_cell_value 99 0 2 ≠ .error .OutOfBounds := by
  decide

/-- C3 (amended): for every board and every (row, col) outside
[0,rows)x[0,cols), `get_cell_value` and `count_alive` fail with OutOfBounds,
and `set_cell_value` fails with OutOfBounds whenever its state argument is
0 or 1; for any other state argument `set_cell_value` fails with
InvalidState instead, whatever the indices. -/
theorem out_of_bounds_errors :
    (∀ (b : Board) (row col : Int),
      ¬(0 ≤ row ∧ row < (b.rows : Int) ∧ 0 ≤ col ∧ col < (b.cols : Int)) →
        b.get_cell_value row col = .error .OutOfBounds ∧
        b.count_alive row col = .error .OutOfBounds ∧
        ∀ state : Int, (state = 0 ∨ state = 1) →
          b.set_cell_value row col state = .error .OutOfBounds) ∧
    (∀ (b : Board) (row col state : Int), ¬(state = 0 ∨ state = 1) →
        b.set_cell_value row col state = .error .InvalidState) := by
  constructor
  · intro b row col h
    refine ⟨?_, ?_, ?_⟩
    · simp [Board.get_cell_value, h]
    · simp [Board.count_alive, h]
    · intro state hs
      simp [Board.set_cell_value, hs, h]
  · intro b row col state hs
    simp [Board.set_cell_value, hs]

/-- Witness for the amended C3 at board `blockBoard`, row 99, col 0. -/
theorem out_of_bounds_errors_witness :
    blockBoard.get_cell_value 99 0 = .error .OutOfBounds ∧
    blockBoard.count_alive 99 0 = .error .OutOfBounds ∧
    ∀ state : Int, (state = 0 ∨ state = 1) →
      blockBoard.set_cell_value 99 0 state = .error .OutOfBounds :=
  out_of_bounds_errors.1 blockBoard 99 0 (by decide)

/-- C2 counterexample: stepping the still-life block with budget 1 puts the
post-step state in seenStates and reaches the budget, the call returns
stop, yet loopFound stays false and loopStep stays unset — the budget
check returns before the loop check runs. -/
theorem max_steps_skips_loop_check_cex :
    blockSimMax1.board.step.change_to_tuple ∈ blockSimMax1.previous_boards ∧
    blockSimMax1.board.step.step_count ≥ blockSimMax1.max_number_of_steps ∧
    (blockSimMax1.simulation_step).2 = false ∧
    (blockSimMax1.simulation_step).1.loop = false ∧
    (blockSimMax1.simulation_step).1.where_is_loop = none := by
  decide

/-- C2 (amended): in every call to simulation_step in which the post-step
step count reaches or exceeds max_number_of_steps, the call returns stop
immediately and the loop check does not run in that call: the driver comes
back with only the board advanced — loopFound, loopStep and seenStates all
unchanged, even when the post-step state is already in seenStates. -/
theorem max_steps_stop_without_loop_check (s : Simulation)
    (h : s.max_number_of_steps ≤ s.board.step.step_count) :
    s.simulation_step = ({ s with board := s.board.step }, false) := by
  simp [Simulation.simulation_step, h]

/-- Witness for the amended C2 at the still-life driver with budget 1. -/
theorem max_steps_stop_without_loop_check_witness :
    blockSimMax1.simulation_step =
      ({ blockSimMax1 with board := blockSimMax1.board.step }, false) :=
  max_steps_stop_without_loop_check blockSimMax1 (by decide)

/-- C9: running a driver whose grid is empty reports loop = false,
where_is_loop = none, reason "empty" and the unchanged step count, while
the same call sets the internal loop flag, so is_loop is true afterwards. -/
theorem empty_run_result (s : Simulation) (h : s.board.empty = true) :
    (s.start_simulation).2.loop = false ∧
    (s.start_simulation).2.where_is_loop = none ∧
    (s.start_simulation).2.why = "empty" ∧
    (s.start_simulation).2.step_count = s.board.step_count ∧
    (s.start_simulation).1.is_loop = true := by
  simp [Simulation.start_simulation, h, Simulation.is_loop]

/-- Witness for C9 at the empty 2x2 driver. -/
theorem empty_run_result_witness :
    (emptySim.start_simulation).2.loop = false ∧
    (emptySim.start_simulation).2.where_is_loop = none ∧
    (emptySim.start_simulation).2.why = "empty" ∧
    (emptySim.start_simulation).2.step_count = emptySim.board.step_count ∧
    (emptySim.start_simulation).1.is_loop = true :=
  empty_run_result emptySim (by decide)

/-- Modelled from the spec: the standard Game of Life next-state rule as
the claim states it — a live cell with fewer than 2 or more than 3 live
neighbors dies; a dead cell with exactly 3 live neighbors becomes alive;
all other cells retain their state. -/
def specNextAlive (alive : Bool) (n : Nat) : Bool :=
  if alive then (if n < 2 ∨ n > 3 then false else alive)
  else (if n = 3 then true else alive)

lemma getD_map_range {α : Type} (n : Nat) (f : Nat → α) (r : Nat) (d : α)
    (hr : r < n) : ((List.range n).map f).getD r d = f r := by
  have hl : r < ((List.range n).map f).length := by simpa using hr
  rw [List.getD_eq_getElem _ _ hl]
  simp

lemma wf_entry (b : Board) (hwf : b.wf) (r c : Nat)
    (hr : r < b.rows) (hc : c < b.cols) :
    mget b.matrix r c = 0 ∨ mget b.matrix r c = 1 := by
  obtain ⟨hlen, hrowlen, hval⟩ := hwf
  have hr' : r < b.matrix.length := by omega
  have hrow : b.matrix.getD r [] ∈ b.matrix := by
    rw [List.getD_eq_getElem _ _ hr']
    exact List.getElem_mem hr'
  have hc' : c < (b.matrix.getD r []).length := by
    rw [hrowlen _ hrow]; exact hc
  have hv : (b.matrix.getD r []).getD c 0 ∈ b.matrix.getD r [] := by
    rw [List.getD_eq_getElem _ _ hc']
    exact List.getElem_mem hc'
  exact hval _ hrow _ hv

/-- C1: for every well-formed board and every in-range cell, `step` writes
the cell the standard-rule next state computed from the neighbor count of
the pre-step matrix (the count below reads `b.matrix`, the matrix before
the step, and the new matrix is built independently of the cells already
written), and `step` increments the step count by exactly 1. -/
theorem step_follows_life_rule (b : Board) (r c : Nat) (hwf : b.wf)
    (hr : r < b.rows) (hc : c < b.cols) :
    mget b.step.matrix r c =
      (if specNextAlive (mget b.matrix r c == 1)
          (count_alive_core b.matrix b.rows b.cols (Int.ofNat r) (Int.ofNat c))
        then 1 else 0) ∧
    b.step.step_count = b.step_count + 1 := by
  constructor
  · show mget ((List.range b.rows).map _) r c = _
    unfold mget
    rw [getD_map_range _ _ _ _ hr, getD_map_range _ _ _ _ hc]
    have hent := wf_entry b hwf r c hr hc
    unfold mget at hent
    rcases hent with h0 | h1
    · rw [h0]
      simp only [specNextAlive]
      split_ifs <;> simp_all
    · rw [h1]
      simp only [specNextAlive]
      split_ifs <;> simp_all
  · rfl

/-- Witness for C1 at the block board, cell (0, 0). -/
theorem step_follows_life_rule_witness :
    mget blockBoard.step.matrix 0 0 =
      (if specNextAlive (mget blockBoard.matrix 0 0 == 1)
          (count_alive_core blockBoard.matrix blockBoard.rows blockBoard.cols
            (Int.ofNat 0) (Int.ofNat 0))
        then 1 else 0) ∧
    blockBoard.step.step_count = blockBoard.step_count + 1 :=
  step_follows_life_rule blockBoard 0 0 (by decide) (by decide) (by decide)

lemma simulation_step_board (s : Simulation) :
    (s.simulation_step).1.board = s.board.step := by
  simp only [Simulation.simulation_step, step_tail]
  split_ifs <;> rfl

lemma simulation_step_max (s : Simulation) :
    (s.simulation_step).1.max_number_of_steps = s.max_number_of_steps := by
  simp only [Simulation.simulation_step, step_tail]
  split_ifs <;> rfl

lemma simulation_step_stop (s : Simulation) :
    (s.simulation_step).1.stop_simulation = s.stop_simulation := by
  simp only [Simulation.simulation_step, step_tail]
  split_ifs <;> rfl

lemma simulation_step_cont (s : Simulation) (h : s.stop_simulation = false) :
    (s.simulation_step).2 = true ↔
      s.board.step.step_count < s.max_number_of_steps := by
  simp only [Simulation.simulation_step, step_tail, h]
  split_ifs <;> simp_all

lemma simulation_step_prev_bound (s : Simulation)
    (h : s.previous_boards.length ≤ 10000) :
    (s.simulation_step).1.previous_boards.length ≤ 10000 := by
  simp only [Simulation.simulation_step, step_tail]
  split_ifs <;> simp_all

lemma stepN_prev_bound : ∀ (k : Nat) (s : Simulation),
    s.previous_boards.length ≤ 10000 →
    (stepN k s).previous_boards.length ≤ 10000 := by
  intro k
  induction k with
  | zero => exact fun s h => h
  | succ k ih => exact fun s h => ih _ (simulation_step_prev_bound s h)

/-- C4: from any constructed driver, after any number of simulation_step
calls the seen-state set holds at most 10000 entries; and whenever the
insert of the post-step state is reached and pushes the set past 10000,
the set comes back as exactly the one triggering state. -/
theorem seen_states_bounded :
    (∀ (b : Board) (max : Nat) (stop : Bool) (s : Simulation) (k : Nat),
        Simulation.construct b max stop = .ok s →
        (stepN k s).previous_boards.length ≤ 10000) ∧
    (∀ s : Simulation,
        s.board.step.step_count < s.max_number_of_steps →
        10000 < (sadd s.board.step.change_to_tuple s.previous_boards).length →
        ¬(s.board.step.change_to_tuple ∈ s.previous_boards ∧ s.stop_simulation = true) →
        (s.simulation_step).1.previous_boards = [s.board.step.change_to_tuple]) := by
  constructor
  · intro b max stop s k hmk
    unfold Simulation.construct at hmk
    split_ifs at hmk <;> cases hmk <;>
      exact stepN_prev_bound k _ (by simp [sadd])
  · intro s hlt hcap hnr
    simp only [Simulation.simulation_step, step_tail]
    split_ifs <;> simp_all <;> omega

/-- Witness for C4 at the block driver, three steps. -/
theorem seen_states_bounded_witness :
    (stepN 3 blockSimNoStop).previous_boards.length ≤ 10000 :=
  seen_states_bounded.1 blockBoard 2 false blockSimNoStop 3 (by decide)

lemma sim_loop_succ (fuel : Nat) (s : Simulation) :
    sim_loop (fuel + 1) s =
      (match s.simulation_step with
       | (s', true) => sim_loop fuel s'
       | (s', false) => s') := rfl

lemma sim_loop_budget : ∀ (fuel : Nat) (s : Simulation),
    s.stop_simulation = false →
    s.board.step_count < s.max_number_of_steps →
    s.max_number_of_steps ≤ s.board.step_count + fuel →
    (sim_loop fuel s).board.step_count = s.max_number_of_steps ∧
    (sim_loop fuel s).max_number_of_steps = s.max_number_of_steps := by
  intro fuel
  induction fuel with
  | zero => intro s _ h2 h3; omega
  | succ fuel ih =>
    intro s hstop hlt hfuel
    have hb := simulation_step_board s
    have hm := simulation_step_max s
    have hst := simulation_step_stop s
    have hcont := simulation_step_cont s hstop
    have hsc : s.board.step.step_count = s.board.step_count + 1 := rfl
    rw [sim_loop_succ]
    cases hstep : s.simulation_step with
    | mk s' c =>
      rw [hstep] at hb hm hst hcont
      cases c
      · simp only []
        have h1 : ¬ s.board.step.step_count < s.max_number_of_steps := by
          intro hcontra
          have := hcont.2 hcontra
          simp at this
        constructor
        · rw [hb, hsc]; omega
        · exact hm
      · simp only []
        have h2 : s.board.step.step_count < s.max_number_of_steps :=
          hcont.1 rfl
        have := ih s' (by rw [hst]; exact hstop)
          (by rw [hb, hm, hsc]; omega)
          (by rw [hb, hm, hsc]; omega)
        rw [this.1, this.2, hm]
        exact ⟨rfl, rfl⟩

/-- C6: a run from a non-empty fresh grid on a driver constructed with
stopOnLoop = false and budget K always finishes with step count exactly K
and reason "max_number_of_steps" — the run stops only when the budget is
exhausted, and the budget takes priority in the reason classification. -/
theorem budget_exhaustion_run (b : Board) (K : Nat) (s : Simulation)
    (hne : b.empty = false) (h0 : b.step_count = 0)
    (hmk : Simulation.construct b K false = .ok s) :
    (s.start_simulation).2.step_count = K ∧
    (s.start_simulation).2.why = "max_number_of_steps" := by
  unfold Simulation.construct at hmk
  split_ifs at hmk with hK
  all_goals cases hmk
  unfold Simulation.start_simulation
  rw [if_neg (by simp [hne])]
  have hrun := sim_loop_budget (K + 1)
    { board := b, max_number_of_steps := K, stop_simulation := false,
      loop := false, where_is_loop := none,
      previous_boards := sadd b.change_to_tuple [] }
    rfl (by simp; omega) (by simp; omega)
  simp only [] at hrun ⊢
  refine ⟨hrun.1, ?_⟩
  unfold Simulation.run_why
  rw [hrun.1, hrun.2, if_pos (le_refl K)]

/-- Witness for C6 at the block driver with budget 2, stop off. -/
theorem budget_exhaustion_run_witness :
    (blockSimNoStop.start_simulation).2.step_count = 2 ∧
    (blockSimNoStop.start_simulation).2.why = "max_number_of_steps" :=
  budget_exhaustion_run blockBoard 2 blockSimNoStop (by decide) (by decide) (by decide)

lemma record_frames (v : Video) :
    (v.record).1.frames = v.frames ++ [(v.simulation.simulation_step).1.board.matrix] := by
  simp only [Video.record, Simulation.copy_current_board]

lemma record_sim (v : Video) :
    (v.record).1.simulation = (v.simulation.simulation_step).1 := by
  simp only [Video.record]

lemma simulation_step_count (s : Simulation) :
    (s.simulation_step).1.board.step_count = s.board.step_count + 1 := by
  rw [simulation_step_board]
  rfl

lemma recordN_invariant : ∀ (k : Nat) (v : Video),
    (recordN k v).frames.length = v.frames.length + k ∧
    (recordN k v).simulation.board.step_count = v.simulation.board.step_count + k ∧
    (0 < v.frames.length →
      (recordN k v).frames.getD 0 [] = v.frames.getD 0 []) := by
  intro k
  induction k with
  | zero => exact fun v => ⟨rfl, rfl, fun _ => rfl⟩
  | succ k ih =>
    intro v
    have h := ih (v.record).1
    have hf := record_frames v
    have hs := record_sim v
    refine ⟨?_, ?_, ?_⟩
    · show (recordN k (v.record).1).frames.length = _
      rw [h.1, hf]
      simp
      omega
    · show (recordN k (v.record).1).simulation.board.step_count = _
      rw [h.2.1, hs, simulation_step_count]
      omega
    · intro hlen
      show (recordN k (v.record).1).frames.getD 0 [] = _
      rw [h.2.2 (by rw [hf]; simp), hf, List.getD_append _ _ _ _ hlen]

/-- C8 counterexample: a Recorder constructed around a driver whose grid
already has step count 1 starts with one frame while the grid's
step count + 1 is 2, so frameCount() = stepCount + 1 fails as a universal
statement over all drivers. -/
theorem frame_count_cex :
    Simulation.construct blockBoard.step 5 true = .ok steppedSim ∧
    (Video.construct steppedSim).get_number_of_frames ≠
      (Video.construct steppedSim).simulation.board.step_count + 1 := by
  decide

/-- C8 (amended): for every Recorder constructed around a driver whose
grid has step count 0 at construction time, after any number of record
calls the frame count equals the grid's step count + 1 (one initial frame
plus one appended per completed step, regardless of the continue/stop
outcome), and frames[0] still equals the construction-time grid contents. -/
theorem frame_count_invariant (k : Nat) (sim : Simulation)
    (h : sim.board.step_count = 0) :
    (recordN k (Video.construct sim)).get_number_of_frames =
      (recordN k (Video.construct sim)).simulation.board.step_count + 1 ∧
    (recordN k (Video.construct sim)).frames.getD 0 [] = sim.board.matrix := by
  have hinv := recordN_invariant k (Video.construct sim)
  refine ⟨?_, ?_⟩
  · unfold Video.get_number_of_frames
    rw [hinv.1, hinv.2.1]
    simp [Video.construct, h]
    omega
  · rw [hinv.2.2 (by simp [Video.construct])]
    rfl

/-- Witness for the amended C8 at the block driver, two record calls. -/
theorem frame_count_invariant_witness :
    (recordN 2 (Video.construct blockSimMax1)).get_number_of_frames =
      (recordN 2 (Video.construct blockSimMax1)).simulation.board.step_count + 1 ∧
    (recordN 2 (Video.construct blockSimMax1)).frames.getD 0 [] =
      blockSimMax1.board.matrix :=
  frame_count_invariant 2 blockSimMax1 (by decide)

/-- C10: Video.video_run classifies with the opposite priority of
start_simulation — "loop" whenever the loop flag is set, even at the
budget; concretely, the blinker with stopOnLoop = false and budget 4
reports "loop" from the recorder run but "max_number_of_steps" from the
driver's own run. -/
theorem video_why_priority :
    (∀ s : Simulation, s.loop = true → video_why s = "loop") ∧
    (Simulation.construct blinkerBoard 4 false = .ok blinkerSimNoStop ∧
     (Video.construct blinkerSimNoStop).video_run.why = "loop" ∧
     (Video.construct blinkerSimNoStop).video_run.loop = true ∧
     (Video.construct blinkerSimNoStop).video_run.step_count ≥
       blinkerSimNoStop.max_number_of_steps ∧
     (blinkerSimNoStop.start_simulation).2.why = "max_number_of_steps") := by
  constructor
  · intro s h
    simp [video_why, h]
  · decide

/-- Witness for C10's universal part at a driver with the loop flag set. -/
theorem video_why_priority_witness :
    video_why { blinkerSimNoStop with loop := true } = "loop" :=
  video_why_priority.1 { blinkerSimNoStop with loop := true } rfl

def blinkerSimAt (max : Nat) : Simulation :=
  { board := blinkerBoard, max_number_of_steps := max, stop_simulation := true,
    loop := false, where_is_loop := none, previous_boards := [blinkerRows] }

def blinkerVertBoard : Board :=
  { rows := 5, cols := 5, step_count := 1, matrix := blinkerVert }

def blinkerVertSimAt (max : Nat) : Simulation :=
  { board := blinkerVertBoard, max_number_of_steps := max, stop_simulation := true,
    loop := false, where_is_loop := none,
    previous_boards := [blinkerVert, blinkerRows] }

def blinkerBackBoard : Board :=
  { rows := 5, cols := 5, step_count := 2, matrix := blinkerRows }

def blinkerFinalSimAt (max : Nat) : Simulation :=
  { board := blinkerBackBoard, max_number_of_steps := max, stop_simulation := true,
    loop := true, where_is_loop := some 2,
    previous_boards := [blinkerVert, blinkerRows] }

lemma simulation_step_go (s : Simulation)
    (hlt : s.board.step.step_count < s.max_number_of_steps)
    (hmem : s.board.step.change_to_tuple ∉ s.previous_boards)
    (hne : s.board.step.empty = false)
    (hlen : (sadd s.board.step.change_to_tuple s.previous_boards).length ≤ 10000) :
    s.simulation_step =
      ({ s with
          board := s.board.step,
          previous_boards := sadd s.board.step.change_to_tuple s.previous_boards },
       true) := by
  simp only [Simulation.simulation_step, step_tail]
  split_ifs <;> simp_all <;> omega

lemma simulation_step_loopstop (s : Simulation)
    (hlt : s.board.step.step_count < s.max_number_of_steps)
    (hmem : s.board.step.change_to_tuple ∈ s.previous_boards)
    (hstop : s.stop_simulation = true) :
    s.simulation_step =
      ({ s with
          board := s.board.step,
          loop := true,
          where_is_loop := some s.board.step.step_count },
       false) := by
  simp only [Simulation.simulation_step, step_tail]
  split_ifs <;> simp_all <;> omega

lemma blinker_step1 (max : Nat) (h : 1 < max) :
    (blinkerSimAt max).simulation_step = (blinkerVertSimAt max, true) := by
  rw [simulation_step_go (blinkerSimAt max)
    (show 1 < max from h)
    (show blinkerBoard.step.change_to_tuple ∉ [blinkerRows] by decide)
    (show blinkerBoard.step.empty = false by decide)
    (show (sadd blinkerBoard.step.change_to_tuple [blinkerRows]).length ≤ 10000 by decide)]
  refine Prod.ext ?_ rfl
  simp only [blinkerSimAt, blinkerVertSimAt]
  rw [show blinkerBoard.step = blinkerVertBoard from by decide,
      show sadd blinkerVertBoard.change_to_tuple [blinkerRows] =
        [blinkerVert, blinkerRows] from by decide]

lemma blinker_step2 (max : Nat) (h : 2 < max) :
    (blinkerVertSimAt max).simulation_step = (blinkerFinalSimAt max, false) := by
  rw [simulation_step_loopstop (blinkerVertSimAt max)
    (show 2 < max from h)
    (show blinkerVertBoard.step.change_to_tuple ∈ [blinkerVert, blinkerRows] by decide)
    rfl]
  refine Prod.ext ?_ rfl
  simp only [blinkerVertSimAt, blinkerFinalSimAt]
  rw [show blinkerVertBoard.step = blinkerBackBoard from by decide]
  rfl

lemma sim_loop_stops (fuel : Nat) (s s' : Simulation)
    (h : s.simulation_step = (s', false)) :
    sim_loop (fuel + 1) s = s' := by
  rw [sim_loop_succ, h]

lemma sim_loop_cont (fuel : Nat) (s s' : Simulation)
    (h : s.simulation_step = (s', true)) :
    sim_loop (fuel + 1) s = sim_loop fuel s' := by
  rw [sim_loop_succ, h]

lemma blinker_sim_loop (max : Nat) (hmax : 3 ≤ max) :
    sim_loop (max + 1) (blinkerSimAt max) = blinkerFinalSimAt max := by
  rw [sim_loop_cont max _ _ (blinker_step1 max (by omega))]
  obtain ⟨m, rfl⟩ : ∃ m, max = m + 1 := ⟨max - 1, by omega⟩
  rw [sim_loop_stops m _ _ (blinker_step2 (m + 1) (by omega))]

/-- C5: the centered horizontal blinker on a 5x5 grid, on a driver
constructed with any budget of at least 3 and stopOnLoop = true, runs to
a result with loop = true, reason "loop", step count 2 and loop step 2. -/
theorem blinker_run_loop (max : Nat) (hmax : 3 ≤ max) (s : Simulation)
    (hmk : Simulation.construct blinkerBoard max true = .ok s) :
    (s.start_simulation).2.loop = true ∧
    (s.start_simulation).2.why = "loop" ∧
    (s.start_simulation).2.step_count = 2 ∧
    (s.start_simulation).2.where_is_loop = some 2 := by
  unfold Simulation.construct at hmk
  split_ifs at hmk with h0
  all_goals cases hmk
  have hseq : ({
      board := blinkerBoard,
      max_number_of_steps := max,
      stop_simulation := true,
      loop := false,
      where_is_loop := none,
      previous_boards := sadd blinkerBoard.change_to_tuple [] } : Simulation) =
      blinkerSimAt max := by
    simp [blinkerSimAt, sadd, Board.change_to_tuple, blinkerBoard]
  rw [hseq]
  unfold Simulation.start_simulation
  rw [if_neg (show ¬ (blinkerSimAt max).board.empty = true from
    (by decide : ¬ blinkerBoard.empty = true))]
  rw [show (blinkerSimAt max).max_number_of_steps = max from rfl]
  rw [blinker_sim_loop max hmax]
  refine ⟨rfl, ?_, rfl, rfl⟩
  show (blinkerFinalSimAt max).run_why = "loop"
  unfold Simulation.run_why
  rw [if_neg (show ¬ (blinkerFinalSimAt max).board.step_count ≥
    (blinkerFinalSimAt max).max_number_of_steps from by
      show ¬ 2 ≥ max
      omega)]
  rfl

/-- Witness for C5 at budget 3. -/
theorem blinker_run_loop_witness :
    (blinkerSim3.start_simulation).2.loop = true ∧
    (blinkerSim3.start_simulation).2.why = "loop" ∧
    (blinkerSim3.start_simulation).2.step_count = 2 ∧
    (blinkerSim3.start_simulation).2.where_is_loop = some 2 :=
  blinker_run_loop 3 (by decide) blinkerSim3 (by decide)

lemma flatten_singletons {α β : Type} (l : List α) (d : α → β) :
    (l.map (fun x => [d x])).flatten = l.map d := by
  induction l with
  | nil => rfl
  | cons x xs ih => simp [ih]

lemma repr01 (v : Nat) (h : v = 0 ∨ v = 1) :
    (Nat.repr v).toList = [if v = 1 then '1' else '0'] := by
  rcases h with h | h <;> subst h <;> decide

lemma save_lines_eq (b : Board) (hwf : b.wf) :
    b.save_board_to_file =
      (List.range b.rows).map (fun row =>
        (List.range b.cols).map (fun col =>
          if mget b.matrix row col = 1 then '1' else '0')) := by
  unfold Board.save_board_to_file
  refine List.map_congr_left ?_
  intro row hrow
  rw [List.mem_range] at hrow
  have hinner : (List.range b.cols).map (fun col => (Nat.repr (mget b.matrix row col)).toList) =
      (List.range b.cols).map (fun col => [if mget b.matrix row col = 1 then '1' else '0']) := by
    refine List.map_congr_left ?_
    intro col hcol
    rw [List.mem_range] at hcol
    exact repr01 _ (wf_entry b hwf row col hrow hcol)
  rw [hinner, flatten_singletons]

lemma check_lines_ok : ∀ (lines : List (List Char)) (len : Nat),
    (∀ line ∈ lines, line.length = len ∧
      line.all (fun symbol => symbol == '0' || symbol == '1') = true) →
    check_lines lines len = .ok () := by
  intro lines
  induction lines with
  | nil => intro len _; rfl
  | cons line rest ih =>
    intro len h
    have hl := h line (by simp)
    unfold check_lines
    rw [if_neg (by simp [hl.1]), if_neg (by simp [hl.2])]
    exact ih len (fun l hm => h l (by simp [hm]))

lemma matrix_rebuild (m : List (List Nat)) (rows cols : Nat)
    (h1 : m.length = rows) (h2 : ∀ row ∈ m, row.length = cols) :
    (List.range rows).map (fun r => (List.range cols).map (fun c => mget m r c)) = m := by
  apply List.ext_getElem
  · simp [h1]
  · intro r hr hr2
    simp only [List.getElem_map, List.getElem_range]
    have hrm : m[r] ∈ m := List.getElem_mem hr2
    apply List.ext_getElem
    · simp [h2 _ hrm]
    · intro c hc hc2
      simp only [List.getElem_map, List.getElem_range]
      unfold mget
      rw [List.getD_eq_getElem _ _ hr2, List.getD_eq_getElem _ _ hc2]

/-- C7: rendering a valid grid with save_board_to_file and loading the
lines back with load_board_from_file into any board whose configured row
count equals the grid's row count succeeds, and the loaded grid equals the
original under is_stable (identical cell matrices). -/
theorem text_round_trip (g target : Board) (hwf : g.wf)
    (hr : 0 < g.rows) (ht : target.rows = g.rows) :
    ∃ b : Board, target.load_board_from_file g.save_board_to_file = .ok b ∧
      b.is_stable g = true := by
  have hsave := save_lines_eq g hwf
  rw [hsave]
  set L := (List.range g.rows).map (fun row =>
    (List.range g.cols).map (fun col =>
      if mget g.matrix row col = 1 then '1' else '0')) with hL
  have hlen : L.length = g.rows := by simp [hL]
  have hne : ¬ (L = []) := by
    intro hcontra
    rw [hcontra] at hlen
    simp at hlen
    omega
  have hfirst : (L.getD 0 []).length = g.cols := by
    rw [hL, getD_map_range _ _ _ _ hr]
    simp
  have hcheck : check_lines L ((L.getD 0 []).length) = .ok () := by
    apply check_lines_ok
    intro line hline
    rw [hL] at hline
    obtain ⟨row, hrow, rfl⟩ := List.mem_map.1 hline
    constructor
    · rw [hfirst]; simp
    · rw [List.all_eq_true]
      intro ch hch
      obtain ⟨col, hcol, rfl⟩ := List.mem_map.1 hch
      by_cases h1 : mget g.matrix row col = 1 <;> simp [h1]
  have hrows : ¬ (L.length ≠ target.rows) := by
    rw [hlen, ht]
    simp
  have hmat : L.map (fun line => line.map (fun symbol => if symbol = '1' then (1:Nat) else 0)) =
      g.matrix := by
    rw [hL, List.map_map]
    refine Eq.trans (List.map_congr_left ?_)
      (matrix_rebuild g.matrix g.rows g.cols hwf.1 hwf.2.1)
    intro row hrow
    rw [List.mem_range] at hrow
    simp only [Function.comp]
    rw [List.map_map]
    refine List.map_congr_left ?_
    intro col hcol
    rw [List.mem_range] at hcol
    rcases wf_entry g hwf row col hrow hcol with h0 | h0 <;> simp [h0]
  have hbind : ∀ {α β : Type} (x : α) (f : α → Except Err β),
      (Except.ok x : Except Err α) >>= f = f x := fun x f => rfl
  unfold Board.load_board_from_file
  rw [if_neg hne]
  simp only [pure_bind]
  rw [hcheck, hbind]
  rw [if_neg hrows]
  refine ⟨_, rfl, ?_⟩
  simp [Board.is_stable, hmat]

/-- Witness for C7 at the block board loaded into itself. -/
theorem text_round_trip_witness :
    ∃ b : Board, blockBoard.load_board_from_file blockBoard.save_board_to_file = .ok b ∧
      b.is_stable blockBoard = true :=
  text_round_trip blockBoard blockBoard (by decide) (by decide) rfl
